import Mathlib

/-!
Verification development for the Pacemaker log parser (`logparser.py`).

The definitions below are a shallow embedding of the parts of the source
relevant to the record extraction / normalization engine and the
classification & time-window query engine:

* keyword pre-filtering (`pacemakerLogKeywords`, `systemLogKeywords`,
  `keywordSearch`, from `LogParser.__init__` and `parse_log_line`);
* the two timestamp grammars and Python `strptime` validation
  (`searchA`, `searchB`, `strptimeA`, `mkDatetime`,
  `formatTimestampFromLogline`);
* line splitting and record construction (`pySplitWS`, `subBracket`,
  `stripChar`, `parseLogLine`);
* the in-memory table and the big SQL query (`Row`, `ruleR1` .. `ruleR8`,
  `inWindow`, `dataRows`, `matchedRows`, `classifyRows`, `sqlQuery`),
  modelling SQLite `LIKE` (case-insensitive for ASCII, `%` and `_`
  wildcards, `ESCAPE`), `UNION` (set union over full result rows,
  `rowid` included) and `ORDER BY TIME, rowid`.
-/

namespace LogParser

/-- Characters matched by the regex class `\s` (ASCII range), as used by
`re.split(r'\s+', ...)` and the timestamp grammars. -/
def isPySpace (c : Char) : Bool :=
  c = ' ' || c = '\t' || c = '\n' || c = '\r' || c = '\x0b' || c = '\x0c'

/-- Characters matched by the regex class `\w` (ASCII range). -/
def isWordChar (c : Char) : Bool :=
  c.isAlphanum || c = '_'

/-- Longest prefix of characters satisfying `p`, together with the rest. -/
def spanP (p : Char → Bool) : List Char → List Char × List Char
  | [] => ([], [])
  | c :: rest =>
    if p c then
      let r := spanP p rest
      (c :: r.1, r.2)
    else ([], c :: rest)

/-- Decimal value of a digit string. -/
def digitsToNat (ds : List Char) : Nat :=
  ds.foldl (fun a c => 10 * a + (c.toNat - 48)) 0

/-- `listInfix needle hay` is true when `needle` occurs as a contiguous
run inside `hay`. -/
def listInfix (needle : List Char) : List Char → Bool
  | [] => needle.isEmpty
  | c :: rest => needle.isPrefixOf (c :: rest) || listInfix needle rest

/-- `containsStr s sub` is true when `sub` occurs as a substring of `s`;
this is the boolean content of `re.search` for a fixed literal. -/
def containsStr (s sub : String) : Bool :=
  listInfix sub.toList s.toList

/-- The alternation branches of `self.pacemaker_log_keywords`.  In the
source the pattern is built from adjacent Python string literals; the
missing `|` between `'... cli-prefer'` and
`'cib-bootstrap-options-maintenance-mode ...'` concatenates the two cues
into the single branch `cli-prefercib-bootstrap-options-maintenance-mode`. -/
def pacemakerLogKeywords : List String :=
  ["LogAction", "LogNodeActions", "stonith-ng", "pacemaker-fenced", "crit:",
   "check_migration_threshold", "corosync", "Result of", "reboot",
   "cannot run anywhere", "attrd_peer_update", "High CPU load detected",
   "cli-ban", "cli-prefercib-bootstrap-options-maintenance-mode",
   "-is-managed", "-maintenance", "-standby"]

/-- The alternation branches of `self.system_log_keywords` (the escaped
`\(` and `\[` are the literal characters). -/
def systemLogKeywords : List String :=
  ["SAPHana(", "SAPHanaController(", "SAPHanaTopology(", "SAPInstance(",
   "gcp-vpc-move-vip", "gcp:alias", "gcp:stonith", "fence_gce",
   "corosync[", "Result of", "reboot"]

/-- `re.search(pattern, logline)` for an alternation of literals: true iff
some branch occurs in the line. -/
def keywordSearch (keys : List String) (line : String) : Bool :=
  keys.any (fun k => containsStr line k)

/-- One token of an SQL `LIKE` pattern. -/
inductive LikeTok where
  | percent
  | underscore
  | lit (c : Char)
deriving DecidableEq

/-- Tokenize a `LIKE` pattern; `esc` is the optional `ESCAPE` character
(a character following it stands for itself). -/
def likeToks (esc : Option Char) : List Char → List LikeTok
  | [] => []
  | c :: rest =>
    if esc = some c then
      match rest with
      | [] => []
      | d :: r2 => LikeTok.lit d :: likeToks esc r2
    else if c = '%' then LikeTok.percent :: likeToks esc rest
    else if c = '_' then LikeTok.underscore :: likeToks esc rest
    else LikeTok.lit c :: likeToks esc rest

/-- `suffixAny f s` is true when `f` accepts some suffix of `s`
(including `s` itself and the empty suffix). -/
def suffixAny (f : List Char → Bool) : List Char → Bool
  | [] => f []
  | c :: t => f (c :: t) || suffixAny f t

/-- SQLite `LIKE` matching: `%` matches any run (possibly empty), `_` one
character, literals compare case-insensitively on ASCII letters. -/
def likeMatch : List LikeTok → List Char → Bool
  | [], s => s.isEmpty
  | LikeTok.percent :: ps, s => suffixAny (likeMatch ps) s
  | LikeTok.underscore :: _, [] => false
  | LikeTok.underscore :: ps, _ :: t => likeMatch ps t
  | LikeTok.lit _ :: _, [] => false
  | LikeTok.lit c :: ps, d :: t => (c.toLower = d.toLower) && likeMatch ps t

/-- `x LIKE pat` (no escape clause). -/
def like (pat s : String) : Bool :=
  likeMatch (likeToks none pat.toList) s.toList

/-- `x LIKE pat ESCAPE esc`. -/
def likeEsc (esc : Char) (pat s : String) : Bool :=
  likeMatch (likeToks (some esc) pat.toList) s.toList

/-- One row of the in-memory table `log`; `rowid` is the SQLite rowid,
assigned consecutively from 1 on insertion (the insertion sequence). -/
structure Row where
  rowid : Nat
  time : String
  node : String
  component : String
  payload : String
deriving DecidableEq

/-- Subquery 1: fencing actions and results, stonith timeout. -/
def ruleR1 (r : Row) : Bool :=
  likeEsc '$' "%$*%FENCE%" r.payload ||
  like "%remote_op_done%Operation%" r.payload ||
  like "%monitor%Timer%expired%" r.payload

/-- Subquery 2: pacemaker actions for resources, CRMD critical logs, high CPU load. -/
def ruleR2 (r : Row) : Bool :=
  like "%notice%LogAction%" r.payload ||
  like "%(LogAction)%" r.payload ||
  like "%crit:%" r.payload ||
  like "%Forcing%away%" r.payload ||
  like "%cannot%run%anywhere%" r.payload ||
  like "%attrd_peer_update%INFINITY%" r.payload ||
  like "%CPU%detected%" r.payload

/-- Subquery 3: corosync error or membership change. -/
def ruleR3 (r : Row) : Bool :=
  like "%TOTEM%" r.payload &&
  (like "%failed%" r.payload || like "%membership%" r.payload ||
   like "%Retransmit%" r.payload)

/-- Subquery 4: failed resource operations. -/
def ruleR4 (r : Row) : Bool :=
  like "%Result%of%operation%" r.payload &&
  !like "%ok%" r.payload &&
  !like "%Cancelled%" r.payload &&
  !like "%probe%" r.payload

/-- Subquery 5: SAPInstance, gcp:stonith, gcp:alias, gcp-vpc-move-vip, fence_gce error. -/
def ruleR5 (r : Row) : Bool :=
  (like "SAPInstance%" r.component ||
   (["stonith-ng", "gcp:stonith", "gcp:alias", "gcp-vpc-move-vip",
     "fence_gce"] : List String).contains r.component) &&
  (like "%ERROR%" r.payload || like "%Failed%" r.payload)

/-- Subquery 6: SAPHANA error or warning. -/
def ruleR6 (r : Row) : Bool :=
  like "SAPHana%" r.component &&
  (like "%ERROR:%" r.payload || like "%WARNING:%" r.payload ||
   like "%ACT%SFAIL%" r.payload)

/-- Subquery 7: cluster/node/RSC maintenance/standby/manage mode change. -/
def ruleR7 (r : Row) : Bool :=
  like "%cib-bootstrap-options-maintenance-mode%value%" r.payload ||
  like "%cib_perform_op%nodes-%-maintenance%" r.payload ||
  like "%cib_perform_op%nodes-%-standby%" r.payload ||
  like "%cib_perform_op%meta_attributes-%" r.payload

/-- Subquery 8: location constraint cli-ban or cli-prefer. -/
def ruleR8 (r : Row) : Bool :=
  like "%cli-ban%" r.payload || like "%cli-prefer%" r.payload

/-- A row is selected by the compound query iff some subquery selects it. -/
def anyRule (r : Row) : Bool :=
  ruleR1 r || ruleR2 r || ruleR3 r || ruleR4 r ||
  ruleR5 r || ruleR6 r || ruleR7 r || ruleR8 r

/-- Lexicographic (byte-wise) strict comparison of character lists: how
SQLite's default `BINARY` collation compares `TEXT` values (the stored
timestamps are ASCII). -/
def ltChars : List Char → List Char → Bool
  | [], [] => false
  | [], _ :: _ => true
  | _ :: _, [] => false
  | c :: cs, d :: ds => decide (c < d) || (decide (c = d) && ltChars cs ds)

/-- Strict `TEXT` comparison of two strings. -/
def strLt (a b : String) : Bool :=
  ltChars a.toList b.toList

/-- The generated `WHERE` clause on `TIME`: `TIME > begin` when a begin
bound is given, `TIME < end` when an end bound is given, no condition
otherwise (SQLite compares the `TEXT` column byte-lexicographically). -/
def inWindow (b e : Option String) (t : String) : Bool :=
  match b, e with
  | some bs, some es => strLt bs t && strLt t es
  | some bs, none => strLt bs t
  | none, some es => strLt t es
  | none, none => true

/-- The `WITH data AS (SELECT ... FROM log WHERE <time>)` stage: the rows
the eight rules are evaluated over. -/
def dataRows (b e : Option String) (rows : List Row) : List Row :=
  rows.filter (fun r => inWindow b e r.time)

/-- The compound `UNION` of the eight subqueries: each subquery filters
the windowed rows, and `UNION` produces a set of full result rows
(`rowid` included), modelled by `dedup`. -/
def matchedRows (b e : Option String) (rows : List Row) : List Row :=
  ((dataRows b e rows).filter ruleR1 ++ (dataRows b e rows).filter ruleR2 ++
   (dataRows b e rows).filter ruleR3 ++ (dataRows b e rows).filter ruleR4 ++
   (dataRows b e rows).filter ruleR5 ++ (dataRows b e rows).filter ruleR6 ++
   (dataRows b e rows).filter ruleR7 ++ (dataRows b e rows).filter ruleR8).dedup

/-- The `ORDER BY TIME, rowid` key. -/
def rowLE (a b : Row) : Prop :=
  strLt a.time b.time = true ∨ (a.time = b.time ∧ a.rowid ≤ b.rowid)

instance : DecidableRel rowLE := fun a b => by
  unfold rowLE
  infer_instance

/-- The ordered result set of the compound query (still carrying rowids). -/
def classifyRows (b e : Option String) (rows : List Row) : List Row :=
  List.insertionSort rowLE (matchedRows b e rows)

/-- The outer `SELECT TIME, NODE, COMPONENT, PAYLOAD` projection. -/
def projectRow (r : Row) : String × String × String × String :=
  (r.time, r.node, r.component, r.payload)

/-- The full generated query: windowing, eight-way `UNION`,
`ORDER BY TIME, rowid`, projection to four columns. -/
def sqlQuery (b e : Option String) (rows : List Row) :
    List (String × String × String × String) :=
  (classifyRows b e rows).map projectRow

/-- Month number for a `%b` abbreviation (Python `strptime` compares
case-insensitively). -/
def monthNum (mon : List Char) : Option Nat :=
  match String.mk (mon.map Char.toLower) with
  | "jan" => some 1
  | "feb" => some 2
  | "mar" => some 3
  | "apr" => some 4
  | "may" => some 5
  | "jun" => some 6
  | "jul" => some 7
  | "aug" => some 8
  | "sep" => some 9
  | "oct" => some 10
  | "nov" => some 11
  | "dec" => some 12
  | _ => none

def isLeap (y : Nat) : Bool :=
  (y % 4 = 0 && !(y % 100 = 0)) || y % 400 = 0

def daysInMonth (y m : Nat) : Nat :=
  if m = 2 then (if isLeap y then 29 else 28)
  else if m = 4 || m = 6 || m = 9 || m = 11 then 30
  else 31

/-- A Python `datetime.datetime` (second resolution, timezone-naive). -/
structure PyDateTime where
  year : Nat
  month : Nat
  day : Nat
  hour : Nat
  minute : Nat
  second : Nat
deriving DecidableEq

/-- The `datetime` constructor: `none` models the `ValueError` raised for
out-of-range components (`MINYEAR = 1`, `MAXYEAR = 9999`). -/
def mkDatetime (y m d h mi s : Nat) : Option PyDateTime :=
  if 1 ≤ y ∧ y ≤ 9999 ∧ 1 ≤ m ∧ m ≤ 12 ∧ 1 ≤ d ∧ d ≤ daysInMonth y m ∧
     h ≤ 23 ∧ mi ≤ 59 ∧ s ≤ 59 then
    some ⟨y, m, d, h, mi, s⟩
  else none

/-- Match of grammar A (`\w{3}\s+\d+\s\d\d:\d\d:\d\d`) anchored at the
start of `s`: returns the three month characters, the day digit run and
the three two-digit clock fields. -/
def matchAAt (s : List Char) : Option (List Char × List Char × Nat × Nat × Nat) :=
  match s with
  | a :: b :: c :: rest =>
    if isWordChar a && isWordChar b && isWordChar c then
      let sp := spanP isPySpace rest
      if sp.1.isEmpty then none
      else
        let dg := spanP Char.isDigit sp.2
        if dg.1.isEmpty then none
        else
          match dg.2 with
          | w :: d1 :: d2 :: c1 :: d3 :: d4 :: c2 :: d5 :: d6 :: _ =>
            if isPySpace w && d1.isDigit && d2.isDigit && c1 = ':' &&
               d3.isDigit && d4.isDigit && c2 = ':' && d5.isDigit && d6.isDigit
            then some ([a, b, c], dg.1, digitsToNat [d1, d2],
                       digitsToNat [d3, d4], digitsToNat [d5, d6])
            else none
          | _ => none
    else none
  | _ => none

/-- `re.search` for grammar A: try every start position, leftmost first. -/
def searchA (s : List Char) : Option (List Char × List Char × Nat × Nat × Nat) :=
  match matchAAt s with
  | some m => some m
  | none =>
    match s with
    | [] => none
    | _ :: t => searchA t

/-- Match of grammar B (`\d{4}-\d\d-\d\dT\d\d:\d\d:\d\d`) anchored at the
start of `s`: returns year, month, day, hour, minute, second. -/
def matchBAt (s : List Char) : Option (Nat × Nat × Nat × Nat × Nat × Nat) :=
  match s with
  | y1 :: y2 :: y3 :: y4 :: s1 :: m1 :: m2 :: s2 :: d1 :: d2 :: tc ::
    h1 :: h2 :: c1 :: i1 :: i2 :: c2 :: x1 :: x2 :: _ =>
    if y1.isDigit && y2.isDigit && y3.isDigit && y4.isDigit && s1 = '-' &&
       m1.isDigit && m2.isDigit && s2 = '-' && d1.isDigit && d2.isDigit &&
       tc = 'T' && h1.isDigit && h2.isDigit && c1 = ':' && i1.isDigit &&
       i2.isDigit && c2 = ':' && x1.isDigit && x2.isDigit
    then some (digitsToNat [y1, y2, y3, y4], digitsToNat [m1, m2],
               digitsToNat [d1, d2], digitsToNat [h1, h2],
               digitsToNat [i1, i2], digitsToNat [x1, x2])
    else none
  | _ => none

/-- `re.search` for grammar B. -/
def searchB (s : List Char) : Option (Nat × Nat × Nat × Nat × Nat × Nat) :=
  match matchBAt s with
  | some m => some m
  | none =>
    match s with
    | [] => none
    | _ :: t => searchB t

/-- `strptime(str(year) + ' ' + group, '%Y %b %d %H:%M:%S')`: the month
abbreviation must be valid, `%Y` consumes at most four digits (so the
current year must fit) and `%d` at most two, and the `datetime`
constructor range-checks every component. -/
def strptimeA (year : Nat) (mon ds : List Char) (hh mm ss : Nat) :
    Option PyDateTime :=
  match monthNum mon with
  | none => none
  | some m =>
    if ds.length ≤ 2 ∧ year ≤ 9999 then
      mkDatetime year m (digitsToNat ds) hh mm ss
    else none

/-- Result of `format_timestamp_from_logline`: `fatal` is the
`except ValueError: sys.exit()` path, `noTs` the implicit `None` return. -/
inductive TsResult where
  | fatal
  | noTs
  | ok (dt : PyDateTime) (kind : Nat)
deriving DecidableEq

/-- `LogParser.format_timestamp_from_logline`, with the run's current
calendar year (`datetime.datetime.now().year`) passed explicitly. -/
def formatTimestampFromLogline (year : Nat) (line : String) : TsResult :=
  match searchA line.toList with
  | some (mon, ds, hh, mm, ss) =>
    match strptimeA year mon ds hh mm ss with
    | some dt => TsResult.ok dt 1
    | none => TsResult.fatal
  | none =>
    match searchB line.toList with
    | some (y, m, d, hh, mm, ss) =>
      match mkDatetime y m d hh mm ss with
      | some dt => TsResult.ok dt 2
      | none => TsResult.fatal
    | none => TsResult.noTs

def toDigitChar (n : Nat) : Char :=
  Char.ofNat (48 + n % 10)

def pad2 (n : Nat) : String :=
  String.mk [toDigitChar (n / 10), toDigitChar n]

def pad4 (n : Nat) : String :=
  String.mk [toDigitChar (n / 1000), toDigitChar (n / 100),
             toDigitChar (n / 10), toDigitChar n]

/-- `str(dt)` for a microsecond-free datetime: `YYYY-MM-DD HH:MM:SS`. -/
def pyStr (dt : PyDateTime) : String :=
  pad4 dt.year ++ "-" ++ pad2 dt.month ++ "-" ++ pad2 dt.day ++ " " ++
  pad2 dt.hour ++ ":" ++ pad2 dt.minute ++ ":" ++ pad2 dt.second

/-- `re.sub(r'\[\d*\]', '', logline, 1)`: delete the first occurrence of
a bracketed digit run, if any. -/
def subBracket : List Char → List Char
  | [] => []
  | c :: rest =>
    if c = '[' then
      let sp := spanP Char.isDigit rest
      match sp.2 with
      | ']' :: tail => tail
      | _ => c :: subBracket rest
    else c :: subBracket rest

mutual

/-- `re.split(r'\s+', s, max)`, accumulating the current field in `cur`
(reversed); a whitespace run is one separator while budget remains. -/
def splitWSGo (max : Nat) (cur : List Char) : List Char → List (List Char)
  | [] => [cur.reverse]
  | c :: rest =>
    if isPySpace c then
      match max with
      | 0 => splitWSGo 0 (c :: cur) rest
      | m + 1 => cur.reverse :: splitWSSkip m rest
    else splitWSGo max (c :: cur) rest

/-- Consume the remainder of a separator run, then resume field
accumulation. -/
def splitWSSkip (max : Nat) : List Char → List (List Char)
  | [] => [[]]
  | c :: rest =>
    if isPySpace c then splitWSSkip max rest
    else splitWSGo max [c] rest

end

/-- `re.split(r'\s+', s, max)` as used by `parse_log_line`. -/
def pySplitWS (max : Nat) (s : List Char) : List String :=
  (splitWSGo max [] s).map (fun l => String.mk l)

/-- Python `str.strip(c)`: remove every leading and trailing `c`. -/
def stripChar (c : Char) (s : String) : String :=
  String.mk (((s.toList.dropWhile (· = c)).reverse.dropWhile (· = c)).reverse)

/-- Observable outcome of `parse_log_line` on one line: `exit` is
`sys.exit()` (fatal for the run), `error` an unhandled exception
propagating out of the call, `skip` a return with no insertion, and
`store` an `INSERT INTO log` of the four fields. -/
inductive LineOutcome where
  | exit
  | error
  | skip
  | store (time node comp payload : String)
deriving DecidableEq

/-- `LogParser.parse_log_line(logline, logtype)` with the current year
passed explicitly.  Missing list indices model Python `IndexError`. -/
def parseLogLine (year : Nat) (logtype : Char) (logline : String) :
    LineOutcome :=
  if logtype = 's' || logtype = 'p' then
    let pattern := if logtype = 's' then systemLogKeywords
                   else pacemakerLogKeywords
    if keywordSearch pattern logline then
      let line2 := String.mk (subBracket logline.toList)
      match formatTimestampFromLogline year line2 with
      | TsResult.fatal => LineOutcome.exit
      | TsResult.noTs => LineOutcome.skip
      | TsResult.ok dt k =>
        if k = 1 then
          let parts := pySplitWS 5 line2.toList
          match parts[3]?, parts[4]?, parts[5]? with
          | some n, some comp, some pl =>
            LineOutcome.store (pyStr dt) n (stripChar '/' (stripChar ':' comp)) pl
          | _, _, _ => LineOutcome.error
        else if k = 2 then
          let parts := pySplitWS 3 line2.toList
          match parts[1]?, parts[2]?, parts[3]? with
          | some n, some comp, some pl =>
            LineOutcome.store (pyStr dt) n (stripChar '/' (stripChar ':' comp)) pl
          | _, _, _ => LineOutcome.error
        else LineOutcome.error
    else LineOutcome.skip
  else LineOutcome.exit

/-- Feed a list of `(logtype, line)` pairs through `parse_log_line`,
assigning rowids consecutively from `nextId`; a fatal or crashing line
aborts the run with its outcome. -/
def ingestAux (year : Nat) : List (Char × String) → Nat → List Row →
    Except LineOutcome (List Row)
  | [], _, acc => Except.ok acc
  | (tag, line) :: rest, nextId, acc =>
    match parseLogLine year tag line with
    | LineOutcome.exit => Except.error LineOutcome.exit
    | LineOutcome.error => Except.error LineOutcome.error
    | LineOutcome.skip => ingestAux year rest nextId acc
    | LineOutcome.store t n c p =>
      ingestAux year rest (nextId + 1) (acc ++ [⟨nextId, t, n, c, p⟩])

/-- Ingestion of a whole run (rowids start at 1, as in SQLite). -/
def ingestLines (year : Nat) (pairs : List (Char × String)) :
    Except LineOutcome (List Row) :=
  ingestAux year pairs 1 []

/-- End-to-end: ingest the lines, then run the generated query. -/
def runPipeline (year : Nat) (b e : Option String)
    (pairs : List (Char × String)) :
    Except LineOutcome (List (String × String × String × String)) :=
  match ingestLines year pairs with
  | Except.error o => Except.error o
  | Except.ok rows => Except.ok (sqlQuery b e rows)

/-- Modelled from the spec: the Record Store operation
`queryRange(begin?, end?)` as §4.3 words it, returning all records with
`begin <= timestamp < end` (either bound omissible).  This definition
follows the specification text and is compared against `dataRows`, the
window the code actually implements. -/
def queryRangeSpec (b e : Option String) (rows : List Row) : List Row :=
  rows.filter (fun r =>
    (match b with
     | some bs => !strLt r.time bs
     | none => true) &&
    (match e with
     | some es => strLt r.time es
     | none => true))

/-- The pacemaker log line used by the end-to-end scenarios of the spec
(`\x27` is the ASCII apostrophe). -/
def sampleLine : String :=
  "Jan 5 10:00:00 node1 stonith-ng: notice: remote_op_done: Operation \x27reboot\x27 targeting node2 by node1 for ...: OK"

/-- The payload field that `parse_log_line` extracts from `sampleLine`. -/
def samplePayload : String :=
  "notice: remote_op_done: Operation \x27reboot\x27 targeting node2 by node1 for ...: OK"

/-! ### Basic facts about the embedded definitions -/

theorem ltChars_irrefl : ∀ l : List Char, ltChars l l = false
  | [] => rfl
  | c :: cs => by
    simp [ltChars, lt_irrefl, ltChars_irrefl cs]

theorem strLt_irrefl (s : String) : strLt s s = false :=
  ltChars_irrefl s.toList

theorem ltChars_trans : ∀ {a b c : List Char},
    ltChars a b = true → ltChars b c = true → ltChars a c = true
  | [], [], _, hab, _ => by simp [ltChars] at hab
  | [], _ :: _, [], _, hbc => by simp [ltChars] at hbc
  | [], _ :: _, _ :: _, _, _ => rfl
  | _ :: _, [], _, hab, _ => by simp [ltChars] at hab
  | _ :: _, _ :: _, [], _, hbc => by simp [ltChars] at hbc
  | x :: xs, y :: ys, z :: zs, hab, hbc => by
    simp only [ltChars, Bool.or_eq_true, Bool.and_eq_true, decide_eq_true_eq] at hab hbc ⊢
    rcases hab with hxy | ⟨hxy, hab'⟩
    · rcases hbc with hyz | ⟨hyz, _⟩
      · exact Or.inl (lt_trans hxy hyz)
      · exact Or.inl (hyz ▸ hxy)
    · rcases hbc with hyz | ⟨hyz, hbc'⟩
      · exact Or.inl (hxy ▸ hyz)
      · exact Or.inr ⟨hxy.trans hyz, ltChars_trans hab' hbc'⟩

theorem strLt_trans {a b c : String} (hab : strLt a b = true)
    (hbc : strLt b c = true) : strLt a c = true :=
  ltChars_trans hab hbc

theorem ltChars_trichotomy : ∀ a b : List Char,
    ltChars a b = true ∨ ltChars b a = true ∨ a = b
  | [], [] => Or.inr (Or.inr rfl)
  | [], _ :: _ => Or.inl rfl
  | _ :: _, [] => Or.inr (Or.inl rfl)
  | x :: xs, y :: ys => by
    simp only [ltChars, Bool.or_eq_true, Bool.and_eq_true, decide_eq_true_eq]
    rcases lt_trichotomy x y with hxy | hxy | hxy
    · exact Or.inl (Or.inl hxy)
    · rcases ltChars_trichotomy xs ys with h | h | h
      · exact Or.inl (Or.inr ⟨hxy, h⟩)
      · exact Or.inr (Or.inl (Or.inr ⟨hxy.symm, h⟩))
      · exact Or.inr (Or.inr (by rw [hxy, h]))
    · exact Or.inr (Or.inl (Or.inl hxy))

theorem strLt_trichotomy (a b : String) :
    strLt a b = true ∨ strLt b a = true ∨ a = b := by
  rcases ltChars_trichotomy a.toList b.toList with h | h | h
  · exact Or.inl h
  · exact Or.inr (Or.inl h)
  · exact Or.inr (Or.inr (String.toList_inj.mp h))

theorem strLt_ne {a b : String} (h : strLt a b = true) : a ≠ b := by
  intro he
  rw [he, strLt_irrefl] at h
  exact Bool.false_ne_true h

instance : IsTrans Row rowLE := by
  constructor
  intro a b c hab hbc
  rcases hab with hab | ⟨hab, hab'⟩
  · rcases hbc with hbc | ⟨hbc, _⟩
    · exact Or.inl (strLt_trans hab hbc)
    · exact Or.inl (hbc ▸ hab)
  · rcases hbc with hbc | ⟨hbc, hbc'⟩
    · exact Or.inl (hab ▸ hbc)
    · exact Or.inr ⟨hab.trans hbc, Nat.le_trans hab' hbc'⟩

instance : IsTotal Row rowLE := by
  constructor
  intro a b
  rcases strLt_trichotomy a.time b.time with h | h | h
  · exact Or.inl (Or.inl h)
  · exact Or.inr (Or.inl h)
  · rcases Nat.le_total a.rowid b.rowid with h' | h'
    · exact Or.inl (Or.inr ⟨h, h'⟩)
    · exact Or.inr (Or.inr ⟨h.symm, h'⟩)

theorem mem_matchedRows {b e : Option String} {rows : List Row} {r : Row} :
    r ∈ matchedRows b e rows ↔
      r ∈ rows ∧ inWindow b e r.time = true ∧ anyRule r = true := by
  simp only [matchedRows, dataRows, anyRule, List.mem_dedup, List.mem_append,
    List.mem_filter, Bool.or_eq_true]
  tauto

theorem nodup_matchedRows (b e : Option String) (rows : List Row) :
    (matchedRows b e rows).Nodup :=
  List.nodup_dedup _

theorem classifyRows_perm (b e : Option String) (rows : List Row) :
    List.Perm (classifyRows b e rows) (matchedRows b e rows) :=
  List.perm_insertionSort rowLE _

theorem classifyRows_sorted (b e : Option String) (rows : List Row) :
    List.Sorted rowLE (classifyRows b e rows) :=
  List.sorted_insertionSort rowLE _

theorem mem_classifyRows {b e : Option String} {rows : List Row} {r : Row} :
    r ∈ classifyRows b e rows ↔
      r ∈ rows ∧ inWindow b e r.time = true ∧ anyRule r = true :=
  ((classifyRows_perm b e rows).mem_iff).trans mem_matchedRows

theorem nodup_classifyRows (b e : Option String) (rows : List Row) :
    (classifyRows b e rows).Nodup :=
  ((classifyRows_perm b e rows).nodup_iff).mpr (nodup_matchedRows b e rows)

/-- With distinct rowids, the sorted result is strictly increasing in the
`(TIME, rowid)` key. -/
theorem classifyRows_strict_pairwise (b e : Option String) (rows : List Row)
    (hids : (rows.map Row.rowid).Nodup) :
    List.Pairwise
      (fun x y : Row => strLt x.time y.time = true ∨
        (x.time = y.time ∧ x.rowid < y.rowid))
      (classifyRows b e rows) := by
  have hs := classifyRows_sorted b e rows
  have hnd := nodup_classifyRows b e rows
  have hmem : ∀ x ∈ classifyRows b e rows, x ∈ rows :=
    fun x hx => (mem_classifyRows.mp hx).1
  have hpair := hs.and hnd
  refine hpair.imp_of_mem ?_
  intro x y hx hy hxy
  rcases hxy with ⟨hle | ⟨heq, hle⟩, hne⟩
  · exact Or.inl hle
  · refine Or.inr ⟨heq, lt_of_le_of_ne hle ?_⟩
    intro hid
    exact hne (List.inj_on_of_nodup_map hids (hmem x hx) (hmem y hy) hid)

theorem subperm_map {α β : Type} (f : α → β) {l₁ l₂ : List α}
    (h : List.Subperm l₁ l₂) : List.Subperm (l₁.map f) (l₂.map f) := by
  obtain ⟨l, hp, hs⟩ := h
  exact ⟨l.map f, hp.map f, hs.map f⟩

theorem subperm_count_le {α : Type} [BEq α] {l₁ l₂ : List α}
    (h : List.Subperm l₁ l₂) (a : α) : l₁.count a ≤ l₂.count a := by
  obtain ⟨l, hp, hs⟩ := h
  have h1 : l.countP (· == a) = l₁.countP (· == a) := hp.countP_eq _
  simp only [List.count] at *
  exact le_of_eq_of_le h1.symm (hs.count_le a)

theorem ingestAux_pairwise (year : Nat) :
    ∀ (pairs : List (Char × String)) (k : Nat) (acc rows : List Row),
      (∀ r ∈ acc, r.rowid < k) →
      List.Pairwise (fun a b : Row => a.rowid < b.rowid) acc →
      ingestAux year pairs k acc = Except.ok rows →
      List.Pairwise (fun a b : Row => a.rowid < b.rowid) rows
  | [], _, acc, rows, _, hpw, h => by
    cases h
    exact hpw
  | (tag, line) :: rest, k, acc, rows, hlt, hpw, h => by
    rw [ingestAux] at h
    cases hp : parseLogLine year tag line <;> rw [hp] at h
    · cases h
    · cases h
    · exact ingestAux_pairwise year rest k acc rows hlt hpw h
    · rename_i t n c p
      refine ingestAux_pairwise year rest (k + 1) _ rows ?_ ?_ h
      · intro r hr
        rcases List.mem_append.mp hr with hr | hr
        · exact Nat.lt_succ_of_lt (hlt r hr)
        · simp only [List.mem_singleton] at hr
          subst hr
          exact Nat.lt_succ_self k
      · rw [List.pairwise_append]
        refine ⟨hpw, List.pairwise_singleton _ _, ?_⟩
        intro a ha b hb
        simp only [List.mem_singleton] at hb
        subst hb
        exact hlt a ha

/-- Ingestion assigns strictly increasing rowids, hence the stored rowids
are distinct. -/
theorem ingestLines_ids_nodup {year : Nat} {pairs : List (Char × String)}
    {rows : List Row} (h : ingestLines year pairs = Except.ok rows) :
    (rows.map Row.rowid).Nodup := by
  have hpw := ingestAux_pairwise year pairs 1 [] rows
    (by intro r hr; cases hr) List.Pairwise.nil h
  have hne : List.Pairwise (fun a b : Row => a.rowid ≠ b.rowid) rows :=
    hpw.imp (fun hlt => Nat.ne_of_lt hlt)
  exact List.pairwise_map.mpr hne

/-! ### The claims -/

/-- C1: the classification query's time window is strictly open on both
ends: a stored record that survives the window filter has `TIME`
strictly greater than a supplied begin bound and strictly less than a
supplied end bound (so a record whose timestamp equals either bound is
excluded), and with no bounds the filter keeps every stored record. -/
theorem c1_time_window_strictly_open (b e : Option String) (rows : List Row)
    (r : Row) (hmem : r ∈ dataRows b e rows) :
    (∀ bs, b = some bs → strLt bs r.time = true ∧ r.time ≠ bs) ∧
    (∀ es, e = some es → strLt r.time es = true ∧ r.time ≠ es) ∧
    dataRows none none rows = rows := by
  have hwin : inWindow b e r.time = true := (List.mem_filter.mp hmem).2
  refine ⟨?_, ?_, ?_⟩
  · rintro bs rfl
    have hb : strLt bs r.time = true := by
      cases e with
      | none => exact hwin
      | some es =>
        have hwin' : (strLt bs r.time && strLt r.time es) = true := hwin
        simp only [Bool.and_eq_true] at hwin'
        exact hwin'.1
    exact ⟨hb, (strLt_ne hb).symm⟩
  · rintro es rfl
    have he : strLt r.time es = true := by
      cases b with
      | none => exact hwin
      | some bs =>
        have hwin' : (strLt bs r.time && strLt r.time es) = true := hwin
        simp only [Bool.and_eq_true] at hwin'
        exact hwin'.2
    exact ⟨he, strLt_ne he⟩
  · simp [dataRows, inWindow]

theorem c1_time_window_strictly_open_witness :
    (⟨1, "2021-06-01 00:00:00", "n", "c", "p"⟩ : Row) ∈
      dataRows (some "2021-01-01 00:00:00") (some "2022-01-01 00:00:00")
        [⟨1, "2021-06-01 00:00:00", "n", "c", "p"⟩] ∧
    ((∀ bs, (some "2021-01-01 00:00:00" : Option String) = some bs →
        strLt bs "2021-06-01 00:00:00" = true ∧ "2021-06-01 00:00:00" ≠ bs) ∧
     (∀ es, (some "2022-01-01 00:00:00" : Option String) = some es →
        strLt "2021-06-01 00:00:00" es = true ∧ "2021-06-01 00:00:00" ≠ es) ∧
     dataRows none none [(⟨1, "2021-06-01 00:00:00", "n", "c", "p"⟩ : Row)] =
       [⟨1, "2021-06-01 00:00:00", "n", "c", "p"⟩]) :=
  ⟨by decide,
   c1_time_window_strictly_open (some "2021-01-01 00:00:00")
     (some "2022-01-01 00:00:00") [⟨1, "2021-06-01 00:00:00", "n", "c", "p"⟩]
     ⟨1, "2021-06-01 00:00:00", "n", "c", "p"⟩ (by decide)⟩

/-- C9 (counterexample): the spec's `queryRange` keeps a record whose
timestamp equals the begin bound (`begin <= timestamp`), but the code's
window filter (`TIME > begin`) drops that same record. -/
theorem c9_begin_bound_counterexample :
    (⟨1, "2021-01-01 00:00:00", "n", "c", "p"⟩ : Row) ∈
      queryRangeSpec (some "2021-01-01 00:00:00") none
        [⟨1, "2021-01-01 00:00:00", "n", "c", "p"⟩] ∧
    (⟨1, "2021-01-01 00:00:00", "n", "c", "p"⟩ : Row) ∉
      dataRows (some "2021-01-01 00:00:00") none
        [⟨1, "2021-01-01 00:00:00", "n", "c", "p"⟩] := by
  decide

/-- C9 (amended): the range query implemented by the code returns exactly
the records with `begin < timestamp < end` — open at the begin bound as
well as the end bound, either bound omissible. -/
theorem c9_query_range_open_at_begin (b e : Option String) (rows : List Row)
    (r : Row) :
    r ∈ dataRows b e rows ↔
      r ∈ rows ∧ (∀ bs, b = some bs → strLt bs r.time = true) ∧
        (∀ es, e = some es → strLt r.time es = true) := by
  cases b <;> cases e <;>
    simp [dataRows, List.mem_filter, inWindow, and_assoc]

/-- C2: the compound query is a union over record identity: any stored,
windowed record matched by at least one rule (in particular one matched
by several rules) occurs exactly once in the ordered result set, while
two distinct records (distinct rowids) with identical visible fields
both occur — the projected output contains their common tuple twice. -/
theorem c2_union_over_record_identity (b e : Option String) (rows : List Row)
    (r₁ r₂ : Row)
    (h1 : r₁ ∈ rows) (h2 : r₂ ∈ rows)
    (hw1 : inWindow b e r₁.time = true) (hw2 : inWindow b e r₂.time = true)
    (hm1 : anyRule r₁ = true) (hm2 : anyRule r₂ = true)
    (hne : r₁.rowid ≠ r₂.rowid) (hfields : projectRow r₁ = projectRow r₂) :
    (classifyRows b e rows).count r₁ = 1 ∧
    (classifyRows b e rows).count r₂ = 1 ∧
    2 ≤ (sqlQuery b e rows).count (projectRow r₁) := by
  have hm1' : r₁ ∈ matchedRows b e rows := mem_matchedRows.mpr ⟨h1, hw1, hm1⟩
  have hm2' : r₂ ∈ matchedRows b e rows := mem_matchedRows.mpr ⟨h2, hw2, hm2⟩
  have hperm := classifyRows_perm b e rows
  have hc1 : (classifyRows b e rows).count r₁ = 1 := by
    rw [hperm.count_eq]
    exact List.count_eq_one_of_mem (nodup_matchedRows b e rows) hm1'
  have hc2 : (classifyRows b e rows).count r₂ = 1 := by
    rw [hperm.count_eq]
    exact List.count_eq_one_of_mem (nodup_matchedRows b e rows) hm2'
  have hrne : r₁ ≠ r₂ := fun h => hne (by rw [h])
  have hsub : List.Subperm [r₁, r₂] (classifyRows b e rows) := by
    refine List.Nodup.subperm (by simp [hrne]) ?_
    intro x hx
    rcases List.mem_pair.mp hx with rfl | rfl
    · exact hperm.mem_iff.mpr hm1'
    · exact hperm.mem_iff.mpr hm2'
  have hmsub := subperm_map projectRow hsub
  have hpair : (([r₁, r₂] : List Row).map projectRow).count (projectRow r₁) = 2 := by
    simp only [List.map_cons, List.map_nil, ← hfields]
    simp [List.count_cons]
  have hle := subperm_count_le hmsub (projectRow r₁)
  exact ⟨hc1, hc2, le_of_eq_of_le hpair.symm hle⟩

theorem c2_union_over_record_identity_witness :
    anyRule (⟨1, "t", "n", "c", "remote_op_done Operation cli-ban"⟩ : Row) = true ∧
    ((classifyRows none none
        [⟨1, "t", "n", "c", "remote_op_done Operation cli-ban"⟩,
         ⟨2, "t", "n", "c", "remote_op_done Operation cli-ban"⟩]).count
        ⟨1, "t", "n", "c", "remote_op_done Operation cli-ban"⟩ = 1 ∧
     (classifyRows none none
        [⟨1, "t", "n", "c", "remote_op_done Operation cli-ban"⟩,
         ⟨2, "t", "n", "c", "remote_op_done Operation cli-ban"⟩]).count
        ⟨2, "t", "n", "c", "remote_op_done Operation cli-ban"⟩ = 1 ∧
     2 ≤ (sqlQuery none none
        [⟨1, "t", "n", "c", "remote_op_done Operation cli-ban"⟩,
         ⟨2, "t", "n", "c", "remote_op_done Operation cli-ban"⟩]).count
        (projectRow ⟨1, "t", "n", "c", "remote_op_done Operation cli-ban"⟩)) :=
  ⟨by decide,
   c2_union_over_record_identity none none _ _ _
     (by decide) (by decide) rfl rfl (by decide) (by decide) (by decide) rfl⟩

/-- C3: for any successfully ingested run, the classification output is
strictly increasing in the `(TIME, rowid)` key — records are ordered by
timestamp, and two records with equal timestamps appear in insertion
(rowid) order, so the order is stable and deterministic; the visible
output is exactly this ordered list projected to its four columns. -/
theorem c3_output_order_stable (year : Nat) (pairs : List (Char × String))
    (rows : List Row) (b e : Option String)
    (hing : ingestLines year pairs = Except.ok rows) :
    List.Pairwise (fun x y : Row => strLt x.time y.time = true ∨
      (x.time = y.time ∧ x.rowid < y.rowid)) (classifyRows b e rows) ∧
    sqlQuery b e rows = (classifyRows b e rows).map projectRow :=
  ⟨classifyRows_strict_pairwise b e rows (ingestLines_ids_nodup hing), rfl⟩

theorem c3_output_order_stable_witness :
    ingestLines 2026 [('p', "Nov 22 00:00:00 n1 c1: cli-ban x"),
                      ('p', "Nov 22 00:00:00 n1 c1: cli-ban y")] =
      Except.ok [⟨1, "2026-11-22 00:00:00", "n1", "c1", "cli-ban x"⟩,
                 ⟨2, "2026-11-22 00:00:00", "n1", "c1", "cli-ban y"⟩] ∧
    (List.Pairwise (fun x y : Row => strLt x.time y.time = true ∨
        (x.time = y.time ∧ x.rowid < y.rowid))
      (classifyRows none none
        [⟨1, "2026-11-22 00:00:00", "n1", "c1", "cli-ban x"⟩,
         ⟨2, "2026-11-22 00:00:00", "n1", "c1", "cli-ban y"⟩]) ∧
     sqlQuery none none
        [⟨1, "2026-11-22 00:00:00", "n1", "c1", "cli-ban x"⟩,
         ⟨2, "2026-11-22 00:00:00", "n1", "c1", "cli-ban y"⟩] =
       (classifyRows none none
        [⟨1, "2026-11-22 00:00:00", "n1", "c1", "cli-ban x"⟩,
         ⟨2, "2026-11-22 00:00:00", "n1", "c1", "cli-ban y"⟩]).map projectRow) :=
  ⟨by rfl,
   c3_output_order_stable 2026
     [('p', "Nov 22 00:00:00 n1 c1: cli-ban x"),
      ('p', "Nov 22 00:00:00 n1 c1: cli-ban y")] _ none none (by rfl)⟩

/-- C4: a line that passes the keyword pre-filter and whose timestamp
parses, but whose whitespace split yields too few fields, makes
`parse_log_line` raise an unhandled `IndexError` (run aborts) instead of
skipping the line: the claim's no-crash requirement fails on this code. -/
theorem c4_malformed_split_crashes :
    keywordSearch pacemakerLogKeywords "Nov 22 00:00:00 reboot" = true ∧
    formatTimestampFromLogline 2026 "Nov 22 00:00:00 reboot" =
      TsResult.ok ⟨2026, 11, 22, 0, 0, 0⟩ 1 ∧
    parseLogLine 2026 'p' "Nov 22 00:00:00 reboot" = LineOutcome.error :=
  ⟨rfl, rfl, rfl⟩

/-- C5 (counterexample): on a line whose candidate timestamp matches
grammar A but has an out-of-range day (99), the normalizer takes the
`except ValueError: sys.exit()` path — a fatal outcome, not the
"no timestamp, drop the line" treatment the claim requires. -/
theorem c5_out_of_range_counterexample :
    formatTimestampFromLogline 2026 "Nov 99 10:00:00 reboot" = TsResult.fatal ∧
    formatTimestampFromLogline 2026 "Nov 99 10:00:00 reboot" ≠ TsResult.noTs ∧
    parseLogLine 2026 'p' "Nov 99 10:00:00 reboot" = LineOutcome.exit :=
  ⟨rfl, by decide, rfl⟩

/-- C5 (amended): when grammar A matches a log line but `strptime`
rejects the values, `format_timestamp_from_logline` is fatal, and
`parse_log_line` on such a line exits the run. -/
theorem c5_out_of_range_is_fatal (year : Nat) (line : String)
    (mon ds : List Char) (hh mm ss : Nat)
    (hs : searchA line.toList = some (mon, ds, hh, mm, ss))
    (hfail : strptimeA year mon ds hh mm ss = none) :
    formatTimestampFromLogline year line = TsResult.fatal ∧
    (keywordSearch pacemakerLogKeywords line = true →
      String.mk (subBracket line.toList) = line →
      parseLogLine year 'p' line = LineOutcome.exit) := by
  have hts : formatTimestampFromLogline year line = TsResult.fatal := by
    simp only [formatTimestampFromLogline, hs, hfail]
  refine ⟨hts, fun hk hsub => ?_⟩
  simp only [parseLogLine, hsub, hts]
  simp [hk]

theorem c5_out_of_range_is_fatal_witness :
    searchA ("Nov 99 10:00:00 reboot".toList) =
      some (['N', 'o', 'v'], ['9', '9'], 10, 0, 0) ∧
    strptimeA 2026 ['N', 'o', 'v'] ['9', '9'] 10 0 0 = none ∧
    (formatTimestampFromLogline 2026 "Nov 99 10:00:00 reboot" = TsResult.fatal ∧
     (keywordSearch pacemakerLogKeywords "Nov 99 10:00:00 reboot" = true →
       String.mk (subBracket ("Nov 99 10:00:00 reboot".toList)) =
         "Nov 99 10:00:00 reboot" →
       parseLogLine 2026 'p' "Nov 99 10:00:00 reboot" = LineOutcome.exit)) :=
  ⟨rfl, rfl,
   c5_out_of_range_is_fatal 2026 "Nov 99 10:00:00 reboot" _ _ _ _ _ rfl rfl⟩

/-- Shared evaluation of `parse_log_line` on the spec's end-to-end sample
line, for either source tag and any representable current year. -/
theorem sample_parse (year : Nat) (h1 : 1 ≤ year) (h2 : year ≤ 9999)
    (tag : Char) (htag : tag = 's' ∨ tag = 'p') :
    parseLogLine year tag sampleLine =
      LineOutcome.store (pyStr ⟨year, 1, 5, 10, 0, 0⟩) "node1" "stonith-ng"
        samplePayload := by
  have hmk : mkDatetime year 1 5 10 0 0 = some ⟨year, 1, 5, 10, 0, 0⟩ := by
    unfold mkDatetime
    rw [if_pos]
    refine ⟨h1, h2, ?_⟩
    norm_num [daysInMonth]
  have hstrp : strptimeA year ['J', 'a', 'n'] ['5'] 10 0 0 =
      some ⟨year, 1, 5, 10, 0, 0⟩ := by
    simp only [strptimeA, show monthNum ['J', 'a', 'n'] = some 1 from rfl]
    rw [if_pos ⟨by norm_num, h2⟩]
    exact hmk
  have hts : formatTimestampFromLogline year sampleLine =
      TsResult.ok ⟨year, 1, 5, 10, 0, 0⟩ 1 := by
    simp only [formatTimestampFromLogline,
      show searchA sampleLine.toList =
        some (['J', 'a', 'n'], ['5'], (10 : Nat), (0 : Nat), (0 : Nat)) from rfl,
      hstrp]
  have hsub : String.mk (subBracket sampleLine.toList) = sampleLine := rfl
  rcases htag with rfl | rfl
  · simp only [parseLogLine, hsub, hts,
      show keywordSearch systemLogKeywords sampleLine = true from rfl]
    rfl
  · simp only [parseLogLine, hsub, hts,
      show keywordSearch pacemakerLogKeywords sampleLine = true from rfl]
    rfl

/-- Shared evaluation of the generated query over the single stored
sample record, for an arbitrary timestamp string. -/
theorem sample_query (t : String) :
    sqlQuery none none [⟨1, t, "node1", "stonith-ng", samplePayload⟩] =
      [(t, "node1", "stonith-ng", samplePayload)] := rfl

/-- Shared evaluation of ingestion of the sample line. -/
theorem sample_ingest (year : Nat) (h1 : 1 ≤ year) (h2 : year ≤ 9999)
    (tag : Char) (htag : tag = 's' ∨ tag = 'p') :
    ingestLines year [(tag, sampleLine)] =
      Except.ok [⟨1, pyStr ⟨year, 1, 5, 10, 0, 0⟩, "node1", "stonith-ng",
        samplePayload⟩] := by
  have hp := sample_parse year h1 h2 tag htag
  simp only [ingestLines, ingestAux, hp]
  rfl

/-- C6 (counterexample): with the system source tag, the keyword
pre-filter accepts the spec's sample line (the cue `reboot` occurs in
the payload), one record is stored, and the classification output
contains one record — not zero. -/
theorem c6_system_tag_counterexample :
    keywordSearch systemLogKeywords sampleLine = true ∧
    runPipeline 2026 none none [('s', sampleLine)] =
      Except.ok [("2026-01-05 10:00:00", "node1", "stonith-ng", samplePayload)] :=
  ⟨rfl, rfl⟩

/-- C6 (amended): processing the sample line with the system source tag
produces exactly one output record — identical to the pacemaker-tag
result — because the system keyword pattern contains the cue `reboot`,
which occurs in the payload, so the pre-filter accepts the line. -/
theorem c6_system_tag_one_record (year : Nat) (h1 : 1 ≤ year)
    (h2 : year ≤ 9999) :
    keywordSearch systemLogKeywords sampleLine = true ∧
    containsStr sampleLine "reboot" = true ∧
    runPipeline year none none [('s', sampleLine)] =
      Except.ok [(pyStr ⟨year, 1, 5, 10, 0, 0⟩, "node1", "stonith-ng",
        samplePayload)] := by
  refine ⟨rfl, rfl, ?_⟩
  simp only [runPipeline, sample_ingest year h1 h2 's' (Or.inl rfl)]
  rw [sample_query]

theorem c6_system_tag_one_record_witness :
    (1 ≤ 2026 ∧ 2026 ≤ 9999) ∧
    (keywordSearch systemLogKeywords sampleLine = true ∧
     containsStr sampleLine "reboot" = true ∧
     runPipeline 2026 none none [('s', sampleLine)] =
       Except.ok [(pyStr ⟨2026, 1, 5, 10, 0, 0⟩, "node1", "stonith-ng",
         samplePayload)]) :=
  ⟨⟨by norm_num, by norm_num⟩,
   c6_system_tag_one_record 2026 (by norm_num) (by norm_num)⟩

/-- C7: processing the sample line with the pacemaker source tag and no
window yields exactly one output record with node `node1`, component
`stonith-ng` (trailing colon stripped) and a payload containing
`remote_op_done`. -/
theorem c7_pacemaker_end_to_end (year : Nat) (h1 : 1 ≤ year)
    (h2 : year ≤ 9999) :
    runPipeline year none none [('p', sampleLine)] =
      Except.ok [(pyStr ⟨year, 1, 5, 10, 0, 0⟩, "node1", "stonith-ng",
        samplePayload)] ∧
    containsStr samplePayload "remote_op_done" = true := by
  refine ⟨?_, rfl⟩
  simp only [runPipeline, sample_ingest year h1 h2 'p' (Or.inr rfl)]
  rw [sample_query]

theorem c7_pacemaker_end_to_end_witness :
    (1 ≤ 2026 ∧ 2026 ≤ 9999) ∧
    (runPipeline 2026 none none [('p', sampleLine)] =
       Except.ok [(pyStr ⟨2026, 1, 5, 10, 0, 0⟩, "node1", "stonith-ng",
         samplePayload)] ∧
     containsStr samplePayload "remote_op_done" = true) :=
  ⟨⟨by norm_num, by norm_num⟩,
   c7_pacemaker_end_to_end 2026 (by norm_num) (by norm_num)⟩

/-- C8: whenever grammar A (the syslog style `Mon dd HH:MM:SS`) matches a
line and the matched values parse, the normalizer yields a timestamp
whose year is the run's current calendar year and whose month, day and
time come from the line, tagged as format kind 1. -/
theorem c8_syslog_current_year (year : Nat) (line : String)
    (mon ds : List Char) (hh mm ss mo : Nat) (dt : PyDateTime)
    (hs : searchA line.toList = some (mon, ds, hh, mm, ss))
    (hm : monthNum mon = some mo)
    (hv : strptimeA year mon ds hh mm ss = some dt) :
    formatTimestampFromLogline year line = TsResult.ok dt 1 ∧
    dt.year = year ∧ dt.month = mo ∧ dt.day = digitsToNat ds ∧
    dt.hour = hh ∧ dt.minute = mm ∧ dt.second = ss := by
  have h1 : formatTimestampFromLogline year line = TsResult.ok dt 1 := by
    simp only [formatTimestampFromLogline, hs, hv]
  refine ⟨h1, ?_⟩
  simp only [strptimeA, hm] at hv
  split at hv
  · simp only [mkDatetime] at hv
    split at hv
    · cases hv
      exact ⟨rfl, rfl, rfl, rfl, rfl, rfl⟩
    · cases hv
  · cases hv

theorem c8_syslog_current_year_witness :
    searchA ("Nov 22 00:00:00 host comp: x".toList) =
      some (['N', 'o', 'v'], ['2', '2'], 0, 0, 0) ∧
    monthNum ['N', 'o', 'v'] = some 11 ∧
    strptimeA 2026 ['N', 'o', 'v'] ['2', '2'] 0 0 0 =
      some ⟨2026, 11, 22, 0, 0, 0⟩ ∧
    (formatTimestampFromLogline 2026 "Nov 22 00:00:00 host comp: x" =
       TsResult.ok ⟨2026, 11, 22, 0, 0, 0⟩ 1 ∧
     (⟨2026, 11, 22, 0, 0, 0⟩ : PyDateTime).year = 2026 ∧
     (⟨2026, 11, 22, 0, 0, 0⟩ : PyDateTime).month = 11 ∧
     (⟨2026, 11, 22, 0, 0, 0⟩ : PyDateTime).day = digitsToNat ['2', '2'] ∧
     (⟨2026, 11, 22, 0, 0, 0⟩ : PyDateTime).hour = 0 ∧
     (⟨2026, 11, 22, 0, 0, 0⟩ : PyDateTime).minute = 0 ∧
     (⟨2026, 11, 22, 0, 0, 0⟩ : PyDateTime).second = 0) :=
  ⟨rfl, rfl, rfl,
   c8_syslog_current_year 2026 "Nov 22 00:00:00 host comp: x" _ _ _ _ _ _ _
     rfl rfl rfl⟩

/-- C10: the missing `|` merges the cues into the single branch
`cli-prefercib-bootstrap-options-maintenance-mode` (neither `cli-prefer`
nor `cib-bootstrap-options-maintenance-mode` is a branch of its own), so
a pacemaker-tagged line containing `cli-prefer` but no actual cue of the
pattern is rejected by the pre-filter: no record is stored and the
classification output — in particular the `cli-prefer` branch of rule
R8 — never sees it. -/
theorem c10_cli_prefer_branch_unreachable (year : Nat) (b e : Option String)
    (line : String) (_hcli : containsStr line "cli-prefer" = true)
    (hno : keywordSearch pacemakerLogKeywords line = false) :
    ("cli-prefercib-bootstrap-options-maintenance-mode" ∈ pacemakerLogKeywords ∧
     "cli-prefer" ∉ pacemakerLogKeywords ∧
     "cib-bootstrap-options-maintenance-mode" ∉ pacemakerLogKeywords) ∧
    parseLogLine year 'p' line = LineOutcome.skip ∧
    runPipeline year b e [('p', line)] = Except.ok [] := by
  have hp : parseLogLine year 'p' line = LineOutcome.skip := by
    simp [parseLogLine, hno]
  refine ⟨by decide, hp, ?_⟩
  simp only [runPipeline, ingestLines, ingestAux, hp]
  rfl

theorem c10_cli_prefer_branch_unreachable_witness :
    containsStr "Jan 5 10:00:00 node1 crmd: cli-prefer-rsc1 created"
      "cli-prefer" = true ∧
    keywordSearch pacemakerLogKeywords
      "Jan 5 10:00:00 node1 crmd: cli-prefer-rsc1 created" = false ∧
    (("cli-prefercib-bootstrap-options-maintenance-mode" ∈ pacemakerLogKeywords ∧
      "cli-prefer" ∉ pacemakerLogKeywords ∧
      "cib-bootstrap-options-maintenance-mode" ∉ pacemakerLogKeywords) ∧
     parseLogLine 2026 'p'
       "Jan 5 10:00:00 node1 crmd: cli-prefer-rsc1 created" =
         LineOutcome.skip ∧
     runPipeline 2026 none none
       [('p', "Jan 5 10:00:00 node1 crmd: cli-prefer-rsc1 created")] =
         Except.ok []) :=
  ⟨rfl, rfl,
   c10_cli_prefer_branch_unreachable 2026 none none
     "Jan 5 10:00:00 node1 crmd: cli-prefer-rsc1 created" rfl rfl⟩

end LogParser
